import Mathlib

/-!
Verification development for the discord-court-bot repository.

The Rust sources (`src/model.rs`, `src/lawsuit.rs`, `src/handler.rs`) are
shallowly embedded: the persisted per-guild `State` documents and the prison
collection become lists, the chat platform's live objects (roles, channels,
member role sets) become an explicit `World` record, and every operation is a
pure state-passing function returning `Except BotErr` for hard failures.
External calls are modelled deterministically: a call succeeds exactly when
the object it targets exists in the `World`.
-/

namespace CourtBot

/-! ## Decimal codec of `SnowflakeId` (model.rs lines 20-61)

`SnowflakeId` is a newtype over `u64`.  Its serde (de)serialization goes
through `Display` (decimal rendering of the `u64`) and `FromStr`
(`str::parse::<u64>`, i.e. `from_str_radix` base 10 with overflow checks).
The rendering is modelled with an explicit fuel argument so that it is
structurally recursive (fuel `n + 1` always suffices, since the digit count
of `n` is at most `n + 1`). -/

structure SnowflakeId where
  val : Nat
deriving DecidableEq, Repr

def U64_MAX : Nat := 18446744073709551615

def digitChar (d : Nat) : Char := Char.ofNat (48 + d)

/-- Decimal rendering loop of Rust's `u64` `Display`: emit the digits most
significant first.  `fuel` only forces termination; it is never exhausted
when `n < fuel`. -/
def toDecAux : Nat → Nat → List Char → List Char
  | 0, _, acc => acc
  | fuel + 1, n, acc =>
    if n < 10 then digitChar n :: acc
    else toDecAux fuel (n / 10) (digitChar (n % 10) :: acc)

def u64Display (n : Nat) : String := String.mk (toDecAux (n + 1) n [])

/-- Rust `char::to_digit(10)`. -/
def charDigit (c : Char) : Option Nat :=
  if 48 ≤ c.toNat ∧ c.toNat ≤ 57 then some (c.toNat - 48) else none

/-- `u64::checked_mul`. -/
def checkedMulU64 (a b : Nat) : Option Nat :=
  if a * b ≤ U64_MAX then some (a * b) else none

/-- `u64::checked_add`. -/
def checkedAddU64 (a b : Nat) : Option Nat :=
  if a + b ≤ U64_MAX then some (a + b) else none

/-- The digit-accumulation loop of `from_str_radix` for `u64`, base 10. -/
def parseU64Digits : List Char → Nat → Option Nat
  | [], acc => some acc
  | c :: cs, acc =>
    match charDigit c with
    | none => none
    | some d =>
      match checkedMulU64 acc 10 with
      | none => none
      | some m =>
        match checkedAddU64 m d with
        | none => none
        | some r => parseU64Digits cs r

/-- Rust `<u64 as FromStr>::from_str`: empty input is an error, a leading
`+` is stripped (a bare `+` is an error), every remaining character must be
a decimal digit, and the accumulated value is overflow-checked. -/
def u64FromStr (s : String) : Option Nat :=
  match s.data with
  | [] => none
  | c :: cs =>
    if c = '+' then
      match cs with
      | [] => none
      | _ :: _ => parseU64Digits cs 0
    else parseU64Digits (c :: cs) 0

def SnowflakeId.display (s : SnowflakeId) : String := u64Display s.val

def SnowflakeId.fromStr (s : String) : Option SnowflakeId :=
  (u64FromStr s).map SnowflakeId.mk

/-- Power of ten matching the digit count that `toDecAux` emits for `n`. -/
def tenPowF : Nat → Nat → Nat
  | 0, _ => 1
  | f + 1, n => if n < 10 then 10 else 10 * tenPowF f (n / 10)

/-! ## Data model (model.rs lines 89-109, lawsuit.rs lines 19-37) -/

structure Lawsuit where
  id : Nat
  plaintiff : SnowflakeId
  accused : SnowflakeId
  plaintiff_lawyer : Option SnowflakeId
  accused_lawyer : Option SnowflakeId
  judge : SnowflakeId
  reason : String
  verdict : Option String
  court_room : SnowflakeId
deriving DecidableEq, Repr

structure CourtRoom where
  channel_id : SnowflakeId
  ongoing_lawsuit : Bool
  role_id : SnowflakeId
deriving DecidableEq, Repr

structure State where
  guild_id : SnowflakeId
  lawsuits : List Lawsuit
  court_category : Option SnowflakeId
  court_rooms : List CourtRoom
  prison_role : Option SnowflakeId
deriving DecidableEq, Repr

structure PrisonEntry where
  guild_id : SnowflakeId
  user_id : SnowflakeId
deriving DecidableEq, Repr

/-! ## BSON rendering and MongoDB filter matching

The `update_one` filters in model.rs address fields of the persisted BSON
documents by (dotted) name, so the embedding renders the serde shape of each
document: `SnowflakeId` serializes as its decimal string (`serde_string`),
`Option` as the value or null, `Uuid` as a distinct scalar.  The filters used
by the repository compare scalar values only, and use paths of depth one
(`guild_id`) or two (`court_rooms.channel_id`, `lawsuit.id`); MongoDB's
array-traversal semantics for the two-step paths is modelled in
`matchPath2`. -/

inductive BVal where
  | vStr (s : String)
  | vBool (b : Bool)
  | vNull
  | vUuid (id : Nat)
  | vArr (elems : List BVal)
  | vDoc (fields : List (String × BVal))

/-- MongoDB equality between a stored value and a scalar filter value (all
filter constants in this repository are scalars). -/
def bvalEqLeaf : BVal → BVal → Bool
  | .vStr a, .vStr b => a == b
  | .vBool a, .vBool b => a == b
  | .vNull, .vNull => true
  | .vUuid a, .vUuid b => a == b
  | _, _ => false

def lookupField : List (String × BVal) → String → Option BVal
  | [], _ => none
  | (k, v) :: rest, key => if k = key then some v else lookupField rest key

/-- Match a one-step path `key: target` against a document. -/
def matchPath1 (fields : List (String × BVal)) (key : String) (target : BVal) : Bool :=
  match lookupField fields key with
  | some v => bvalEqLeaf v target
  | none => false

def subDocMatch (v : BVal) (key : String) (target : BVal) : Bool :=
  match v with
  | .vDoc fields =>
    match lookupField fields key with
    | some x => bvalEqLeaf x target
    | none => false
  | _ => false

/-- Match a dotted path `k1.k2: target` against a document: step into the
field `k1`, which may be a subdocument or an array of subdocuments (MongoDB
matches an array field if any element matches). -/
def matchPath2 (fields : List (String × BVal)) (k1 k2 : String) (target : BVal) : Bool :=
  match lookupField fields k1 with
  | none => false
  | some (.vDoc sub) =>
    match lookupField sub k2 with
    | some x => bvalEqLeaf x target
    | none => false
  | some (.vArr elems) => elems.any (fun e => subDocMatch e k2 target)
  | some _ => false

def snowBVal (s : SnowflakeId) : BVal := .vStr (u64Display s.val)

def optSnowBVal : Option SnowflakeId → BVal
  | some s => snowBVal s
  | none => .vNull

def optStrBVal : Option String → BVal
  | some v => .vStr v
  | none => .vNull

/-- Serde/BSON rendering of `Lawsuit`. -/
def Lawsuit.bson (l : Lawsuit) : List (String × BVal) :=
  [("id", .vUuid l.id),
   ("plaintiff", snowBVal l.plaintiff),
   ("accused", snowBVal l.accused),
   ("plaintiff_lawyer", optSnowBVal l.plaintiff_lawyer),
   ("accused_lawyer", optSnowBVal l.accused_lawyer),
   ("judge", snowBVal l.judge),
   ("reason", .vStr l.reason),
   ("verdict", optStrBVal l.verdict),
   ("court_room", snowBVal l.court_room)]

/-- Serde/BSON rendering of `CourtRoom`. -/
def CourtRoom.bson (r : CourtRoom) : List (String × BVal) :=
  [("channel_id", snowBVal r.channel_id),
   ("ongoing_lawsuit", .vBool r.ongoing_lawsuit),
   ("role_id", snowBVal r.role_id)]

/-- Serde/BSON rendering of `State`: note the lawsuit array is stored under
the field name `lawsuits` (plural). -/
def State.bson (s : State) : List (String × BVal) :=
  [("guild_id", snowBVal s.guild_id),
   ("lawsuits", .vArr (s.lawsuits.map (fun l => .vDoc l.bson))),
   ("court_category", optSnowBVal s.court_category),
   ("court_rooms", .vArr (s.court_rooms.map (fun r => .vDoc r.bson))),
   ("prison_role", optSnowBVal s.prison_role)]

/-! ## Platform (Discord) model -/

structure PlatformRole where
  id : SnowflakeId
  name : String
deriving DecidableEq, Repr

structure PlatformChannel where
  id : SnowflakeId
  name : String
  parent : Option SnowflakeId
deriving DecidableEq, Repr

structure PlatformMember where
  user_id : SnowflakeId
  roles : List SnowflakeId
deriving DecidableEq, Repr

structure PlatformGuild where
  roles : List PlatformRole
  channels : List PlatformChannel
  members : List PlatformMember
deriving DecidableEq, Repr

/-- One entry per external call that writes somewhere (store write, role
grant/revoke, role/channel creation, message send).  Reads are not traced.
The trace orders the side effects a run performs. -/
inductive Effect where
  | dbInsertState (guild : SnowflakeId)
  | dbPushLawsuit (guild : SnowflakeId) (l : Lawsuit)
  | dbSetRoomOngoing (guild channel : SnowflakeId) (v : Bool)
  | dbSetLawsuitVerdict (guild : SnowflakeId) (id : Nat) (v : Option String)
  | dbPushRoom (guild : SnowflakeId) (r : CourtRoom)
  | dbPrisonUpsert (guild user : SnowflakeId)
  | dbPrisonDelete (guild user : SnowflakeId)
  | roleGrant (guild user role : SnowflakeId)
  | roleRevoke (guild user role : SnowflakeId)
  | roleCreate (guild role : SnowflakeId) (name : String)
  | channelCreate (guild channel : SnowflakeId) (name : String)
      (category : SnowflakeId) (postRole : SnowflakeId)
  | msgSend (guild channel : SnowflakeId) (title : String)
deriving DecidableEq, Repr

/-- The two stores the bot talks to: the MongoDB collections (`states`,
`prison`) and the live platform objects per guild, plus a fresh-id counter
for created roles/channels and the effect trace. -/
structure World where
  states : List State
  prison : List PrisonEntry
  guilds : List (SnowflakeId × PlatformGuild)
  nextId : Nat
  trace : List Effect
deriving DecidableEq, Repr

inductive BotErr where
  | guildNotFound (g : SnowflakeId)
  | memberNotFound (g u : SnowflakeId)
  | noVerdictFound
deriving DecidableEq, Repr

inductive Response where
  | ephemeralStr (s : String)
  | ephemeral (s : String)
  | noPermissions
deriving DecidableEq, Repr

def pushTrace (w : World) (e : Effect) : World :=
  { w with trace := w.trace ++ [e] }

/-- Sequencing of fallible calls: an error short-circuits but keeps the
world reached so far (a failed external call does not roll anything back). -/
def bindE {α β : Type} (x : Except BotErr α × World)
    (f : α → World → Except BotErr β × World) : Except BotErr β × World :=
  match x with
  | (.ok a, w) => f a w
  | (.error e, w) => (.error e, w)

/-! ## Mongo primitives (model.rs lines 168-373) -/

/-- `find_one` on the state collection with filter `guild_id`. -/
def stateOf (w : World) (g : SnowflakeId) : Option State :=
  w.states.find? (fun s => s.guild_id == g)

/-- `Mongo::find_or_insert_state`. -/
def findOrInsertState (g : SnowflakeId) (w : World) : State × World :=
  match stateOf w g with
  | some s => (s, w)
  | none =>
    let s : State :=
      { guild_id := g, lawsuits := [], court_category := none,
        court_rooms := [], prison_role := none }
    (s, pushTrace { w with states := w.states ++ [s] } (.dbInsertState g))

/-- `update_one` on the state collection: rewrite the first document
satisfying the filter. -/
def updateFirstState (p : State → Bool) (f : State → State) :
    List State → List State
  | [] => []
  | s :: rest => if p s then f s :: rest else s :: updateFirstState p f rest

def updateFirstRoom (p : CourtRoom → Bool) (f : CourtRoom → CourtRoom) :
    List CourtRoom → List CourtRoom
  | [] => []
  | r :: rest => if p r then f r :: rest else r :: updateFirstRoom p f rest

def updateFirstLawsuit (p : Lawsuit → Bool) (f : Lawsuit → Lawsuit) :
    List Lawsuit → List Lawsuit
  | [] => []
  | l :: rest => if p l then f l :: rest else l :: updateFirstLawsuit p f rest

/-- `Mongo::add_lawsuit`: `find_or_insert_state`, then
`update_one({guild_id}, {$push: {lawsuits: l}})`. -/
def mongoAddLawsuit (g : SnowflakeId) (l : Lawsuit) (w : World) : World :=
  let w := (findOrInsertState g w).2
  let w := { w with states :=
    (updateFirstState (fun s => matchPath1 s.bson "guild_id" (snowBVal g))
      (fun s => { s with lawsuits := s.lawsuits ++ [l] }) w.states) }
  pushTrace w (.dbPushLawsuit g l)

/-- `Mongo::add_court_room`: `find_or_insert_state`, then
`update_one({guild_id}, {$push: {court_rooms: room}})`. -/
def mongoAddCourtRoom (g : SnowflakeId) (room : CourtRoom) (w : World) : World :=
  let w := (findOrInsertState g w).2
  let w := { w with states :=
    (updateFirstState (fun s => matchPath1 s.bson "guild_id" (snowBVal g))
      (fun s => { s with court_rooms := s.court_rooms ++ [room] }) w.states) }
  pushTrace w (.dbPushRoom g room)

/-- `Mongo::set_court_room` as called with
`{court_rooms.$.ongoing_lawsuit: v}`: the filter is
`{guild_id, "court_rooms.channel_id": channel_id}` and the positional `$`
updates the array element the filter matched, i.e. the first room whose
serialized `channel_id` equals the serialized argument. -/
def mongoSetCourtRoomOngoing (g ch : SnowflakeId) (v : Bool) (w : World) : World :=
  let w := (findOrInsertState g w).2
  let w := { w with states :=
    (updateFirstState
      (fun s => matchPath1 s.bson "guild_id" (snowBVal g) &&
        matchPath2 s.bson "court_rooms" "channel_id" (snowBVal ch))
      (fun s => { s with court_rooms :=
        (updateFirstRoom (fun r => bvalEqLeaf (snowBVal r.channel_id) (snowBVal ch))
          (fun r => { r with ongoing_lawsuit := v }) s.court_rooms) }) w.states) }
  pushTrace w (.dbSetRoomOngoing g ch v)

/-- `Mongo::set_lawsuit` as called with `{lawsuits.$.verdict: v}`: the
filter is `{guild_id, "lawsuit.id": lawsuit_id}` — note the path steps into
a field named `lawsuit`, while the `State` document stores its array under
`lawsuits`, so `matchPath2` never succeeds and `update_one` matches no
document.  The update branch (set the verdict of the positionally matched
lawsuit) is kept for completeness but is unreachable. -/
def mongoSetLawsuitVerdict (g : SnowflakeId) (uid : Nat) (v : Option String)
    (w : World) : World :=
  let w := (findOrInsertState g w).2
  let w := { w with states :=
    (updateFirstState
      (fun s => matchPath1 s.bson "guild_id" (snowBVal g) &&
        matchPath2 s.bson "lawsuit" "id" (.vUuid uid))
      (fun s => { s with lawsuits :=
        (updateFirstLawsuit (fun l => l.id == uid)
          (fun l => { l with verdict := v }) s.lawsuits) }) w.states) }
  pushTrace w (.dbSetLawsuitVerdict g uid v)

/-- `Mongo::find_prison_entry`. -/
def findPrisonEntry (g u : SnowflakeId) (w : World) : Option PrisonEntry :=
  w.prison.find? (fun e => e.guild_id == g && e.user_id == u)

/-- `Mongo::add_to_prison`: upsert keyed by `(guild_id, user_id)`. -/
def mongoAddToPrison (g u : SnowflakeId) (w : World) : World :=
  let w :=
    match findPrisonEntry g u w with
    | some _ => w
    | none => { w with prison := w.prison ++ [{ guild_id := g, user_id := u }] }
  pushTrace w (.dbPrisonUpsert g u)

def deleteFirstEntry (g u : SnowflakeId) : List PrisonEntry → List PrisonEntry
  | [] => []
  | e :: rest =>
    if e.guild_id == g && e.user_id == u then rest
    else e :: deleteFirstEntry g u rest

/-- `Mongo::remove_from_prison`: `delete_one` keyed by
`(guild_id, user_id)`. -/
def mongoRemoveFromPrison (g u : SnowflakeId) (w : World) : World :=
  pushTrace { w with prison := deleteFirstEntry g u w.prison } (.dbPrisonDelete g u)

/-! ## Platform primitives

`GuildId::to_partial_guild` / `GuildId::member` resolve objects from the
live platform: they succeed exactly when the guild (resp. member) exists in
the `World`. -/

def getGuild (w : World) (g : SnowflakeId) : Option PlatformGuild :=
  (w.guilds.find? (fun p => p.1 == g)).map Prod.snd

def updateGuild (w : World) (g : SnowflakeId) (f : PlatformGuild → PlatformGuild) :
    World :=
  { w with guilds := w.guilds.map (fun p => if p.1 == g then (p.1, f p.2) else p) }

def PlatformGuild.findMember (pg : PlatformGuild) (u : SnowflakeId) :
    Option PlatformMember :=
  pg.members.find? (fun m => m.user_id == u)

def PlatformGuild.updateMember (pg : PlatformGuild) (u : SnowflakeId)
    (f : PlatformMember → PlatformMember) : PlatformGuild :=
  { pg with members := pg.members.map (fun m => if m.user_id == u then f m else m) }

/-- `guild_id.member(http, user)` followed by `member.add_role(http, role)`
(serenity skips the HTTP call when the member already holds the role; the
resulting member state is the same either way).  The grant operation is
traced in call order. -/
def memberAddRole (g u r : SnowflakeId) (w : World) : Except BotErr Unit × World :=
  match getGuild w g with
  | none => (.error (.guildNotFound g), w)
  | some pg =>
    match pg.findMember u with
    | none => (.error (.memberNotFound g u), w)
    | some _ =>
      let w := updateGuild w g (fun pg => pg.updateMember u
        (fun m => if m.roles.contains r then m else { m with roles := r :: m.roles }))
      (.ok (), pushTrace w (.roleGrant g u r))

/-- `guild_id.member(http, user)` followed by
`member.remove_role(http, role)`. -/
def memberRemoveRole (g u r : SnowflakeId) (w : World) : Except BotErr Unit × World :=
  match getGuild w g with
  | none => (.error (.guildNotFound g), w)
  | some pg =>
    match pg.findMember u with
    | none => (.error (.memberNotFound g u), w)
    | some _ =>
      let w := updateGuild w g (fun pg => pg.updateMember u
        (fun m => { m with roles := m.roles.filter (fun x => !(x == r)) }))
      (.ok (), pushTrace w (.roleRevoke g u r))

def addRoleOpt (g : SnowflakeId) (u : Option SnowflakeId) (r : SnowflakeId)
    (w : World) : Except BotErr Unit × World :=
  match u with
  | some user => memberAddRole g user r w
  | none => (.ok (), w)

def removeRoleOpt (g : SnowflakeId) (u : Option SnowflakeId) (r : SnowflakeId)
    (w : World) : Except BotErr Unit × World :=
  match u with
  | some user => memberRemoveRole g user r w
  | none => (.ok (), w)

/-! ## Lawsuit operations (lawsuit.rs) -/

structure LawsuitCtx where
  lawsuit : Lawsuit
  guild_id : SnowflakeId
deriving DecidableEq, Repr

def configureCategoryMsg : String :=
  "Zuerst eine Kategorie für die Gerichtsräume festlegen mit `/lawsuit set_category`"

def channelNotFoundMsg : String := "i ha de channel für de prozess nöd gfunde"

def processOpenTitle : String := "Prozess"

def processCloseTitle : String := "Prozess abgeschlossen"

/-- `send_court_message` specialized to the opening announcement
(`send_process_open_message`): resolve the room's channel among the guild's
live channels; if absent, soft-fail with `channelNotFoundMsg`; otherwise
send the embed (whose builder reads no verdict). -/
def sendProcessOpenMessage (ctx : LawsuitCtx) (room : CourtRoom) (w : World) :
    Except BotErr (Except Response Unit) × World :=
  match getGuild w ctx.guild_id with
  | none => (.error (.guildNotFound ctx.guild_id), w)
  | some pg =>
    match pg.channels.find? (fun c => c.id == room.channel_id) with
    | some c => (.ok (.ok ()), pushTrace w (.msgSend ctx.guild_id c.id processOpenTitle))
    | none => (.ok (.error (.ephemeralStr channelNotFoundMsg)), w)

/-- `send_court_message` specialized to the closing announcement
(`send_process_close_message`): the embed builder runs
`lawsuit.verdict.clone().expect("no verdict found!")`, modelled as the
`noVerdictFound` hard error when the verdict is absent. -/
def sendProcessCloseMessage (ctx : LawsuitCtx) (room : CourtRoom) (w : World) :
    Except BotErr (Except Response Unit) × World :=
  match getGuild w ctx.guild_id with
  | none => (.error (.guildNotFound ctx.guild_id), w)
  | some pg =>
    match pg.channels.find? (fun c => c.id == room.channel_id) with
    | some c =>
      match ctx.lawsuit.verdict with
      | none => (.error .noVerdictFound, w)
      | some _ => (.ok (.ok ()), pushTrace w (.msgSend ctx.guild_id c.id processCloseTitle))
    | none => (.ok (.error (.ephemeralStr channelNotFoundMsg)), w)

/-- `LawsuitCtx::create_room` (lawsuit.rs lines 326-400): derive the names
from the current room count, look up or create the role, look up the channel
by name (conflict if it lives under another category) or create it under the
target category, then persist the new `CourtRoom` with
`ongoing_lawsuit = false`. -/
def createRoom (ctx : LawsuitCtx) (roomLen : Nat) (category : SnowflakeId)
    (w : World) : Except BotErr (Except Response CourtRoom) × World :=
  let roomName := "gerichtsraum-" ++ toString (roomLen + 1)
  let roleName := "Gerichtsprozess " ++ toString (roomLen + 1)
  match getGuild w ctx.guild_id with
  | none => (.error (.guildNotFound ctx.guild_id), w)
  | some pg =>
    let step :=
      match pg.roles.find? (fun r => r.name == roleName) with
      | some role => (role.id, w)
      | none =>
        let rid : SnowflakeId := ⟨w.nextId⟩
        let w := { w with nextId := w.nextId + 1 }
        let w := updateGuild w ctx.guild_id
          (fun pg => { pg with roles :=
            pg.roles ++ [({ id := rid, name := roleName } : PlatformRole)] })
        (rid, pushTrace w (.roleCreate ctx.guild_id rid roleName))
    let roleId := step.1
    let w := step.2
    match getGuild w ctx.guild_id with
    | none => (.error (.guildNotFound ctx.guild_id), w)
    | some pg2 =>
      let finish := fun (channelId : SnowflakeId) (w : World) =>
        let room : CourtRoom :=
          { channel_id := channelId, ongoing_lawsuit := false, role_id := roleId }
        let w := mongoAddCourtRoom ctx.guild_id room w
        ((.ok (.ok room) : Except BotErr (Except Response CourtRoom)), w)
      match pg2.channels.find? (fun c => c.name == roomName) with
      | some c =>
        if c.parent == some category then finish c.id w
        else
          (.ok (.error (.ephemeral
            ("de channel " ++ roomName ++ " isch i de falsche kategorie, man eh"))), w)
      | none =>
        let cid : SnowflakeId := ⟨w.nextId⟩
        let w := { w with nextId := w.nextId + 1 }
        let w := updateGuild w ctx.guild_id (fun pg =>
          { pg with channels :=
            pg.channels ++ [{ id := cid, name := roomName, parent := some category }] })
        let w := pushTrace w (.channelCreate ctx.guild_id cid roomName category roleId)
        finish cid w

/-- The room-selection part of `LawsuitCtx::initialize` (lawsuit.rs lines
46-70): reuse the first `CourtRoom` with `ongoing_lawsuit == false`;
otherwise create one under the configured category; otherwise soft-fail
asking the operator to configure a category. -/
def lawsuitAllocateRoom (ctx : LawsuitCtx) (state : State) (w : World) :
    Except BotErr (Except Response CourtRoom) × World :=
  match state.court_rooms.find? (fun r => !r.ongoing_lawsuit) with
  | some room => (.ok (.ok room), w)
  | none =>
    match state.court_category with
    | some category => createRoom ctx state.court_rooms.length category w
    | none => (.ok (.error (.ephemeralStr configureCategoryMsg)), w)

/-- The detached tail of lawsuit creation (`LawsuitCtx::setup`, lawsuit.rs
lines 96-141): persist the lawsuit, mark the room ongoing, then grant the
room's role to accused, accused's lawyer (if any), plaintiff, plaintiff's
lawyer (if any), and judge, in that order. -/
def lawsuitSetup (ctx : LawsuitCtx) (room : CourtRoom) (w : World) :
    Except BotErr Unit × World :=
  let g := ctx.guild_id
  let l := ctx.lawsuit
  let w := mongoAddLawsuit g l w
  let w := mongoSetCourtRoomOngoing g room.channel_id true w
  bindE (memberAddRole g l.accused room.role_id w) fun _ w =>
  bindE (addRoleOpt g l.accused_lawyer room.role_id w) fun _ w =>
  bindE (memberAddRole g l.plaintiff room.role_id w) fun _ w =>
  bindE (addRoleOpt g l.plaintiff_lawyer room.role_id w) fun _ w =>
  memberAddRole g l.judge room.role_id w

/-- `LawsuitCtx::initialize` (lawsuit.rs lines 40-94) up to the
`tokio::spawn` point: load state, allocate a room, send the opening
announcement, bind the room onto the lawsuit, and return the acknowledgement
together with the detached setup task's input (`none` when nothing was
spawned).  The spawned `lawsuitSetup` itself is a separate function, since
the caller does not await it. -/
def lawsuitInit (ctx : LawsuitCtx) (w : World) :
    Except BotErr (Response × Option (LawsuitCtx × CourtRoom)) × World :=
  let p := findOrInsertState ctx.guild_id w
  let state := p.1
  match lawsuitAllocateRoom ctx state p.2 with
  | (.error e, w) => (.error e, w)
  | (.ok (.error resp), w) => (.ok (resp, none), w)
  | (.ok (.ok room), w) =>
    match sendProcessOpenMessage ctx room w with
    | (.error e, w) => (.error e, w)
    | (.ok (.error resp), w) => (.ok (resp, none), w)
    | (.ok (.ok ()), w) =>
      let channelId := room.channel_id
      let ctx2 := { ctx with lawsuit := { ctx.lawsuit with court_room := channelId } }
      (.ok (Response.ephemeral
        ("ha eine ufgmacht im channel <#" ++ u64Display channelId.val ++ ">"),
        some (ctx2, room)), w)

/-- The post-authorization body of `LawsuitCtx::rule_verdict` (lawsuit.rs
lines 154-208), run with the verdict already written onto the in-memory
lawsuit.  The `tokio::try_join!` batch (free the room, persist the verdict,
strip accused/plaintiff/judge) runs concurrently in the source with no
ordering dependency; it is modelled in program-text order.  Afterwards the
lawyers are stripped sequentially and the closing announcement is sent; its
result is the operation's result. -/
def ruleVerdictRun (ctx : LawsuitCtx) (room : CourtRoom) (w : World) :
    Except BotErr (Except Response Unit) × World :=
  let g := ctx.guild_id
  let l := ctx.lawsuit
  let w := mongoSetCourtRoomOngoing g l.court_room false w
  let w := mongoSetLawsuitVerdict g l.id l.verdict w
  bindE (memberRemoveRole g l.accused room.role_id w) fun _ w =>
  bindE (memberRemoveRole g l.plaintiff room.role_id w) fun _ w =>
  bindE (memberRemoveRole g l.judge room.role_id w) fun _ w =>
  bindE (removeRoleOpt g l.accused_lawyer room.role_id w) fun _ w =>
  bindE (removeRoleOpt g l.plaintiff_lawyer room.role_id w) fun _ w =>
  sendProcessCloseMessage ctx room w

/-- `LawsuitCtx::rule_verdict` (lawsuit.rs lines 143-209): authorization
first (requester must be the judge unless `permission_override`), then set
the in-memory verdict and run the teardown.  Returns the result, the
(possibly mutated) context, and the world. -/
def ruleVerdict (ctx : LawsuitCtx) (permissionOverride : Bool) (userId : SnowflakeId)
    (verdict : String) (room : CourtRoom) (w : World) :
    Except BotErr (Except Response Unit) × LawsuitCtx × World :=
  if ctx.lawsuit.judge ≠ userId ∧ ¬permissionOverride then
    (.ok (.error .noPermissions), ctx, w)
  else
    let ctx2 := { ctx with lawsuit := { ctx.lawsuit with verdict := some verdict } }
    let p := ruleVerdictRun ctx2 room w
    (p.1, ctx2, p.2)

/-! ## Handlers (handler.rs) -/

def configureRoleMsg : String := "du mosch zerst e rolle setze mit /prison set_role"

def arrestDoneMsg : String := "hani igsperrt"

def releaseDoneMsg : String := "d'freiheit wartet"

/-- The `arrest` subcommand of `prison_command_handler` (handler.rs lines
485-517).  `hasManageGuild` is the externally computed
`permissions.contains(MANAGE_GUILD)` flag. -/
def prisonArrest (hasManageGuild : Bool) (g u : SnowflakeId) (w : World) :
    Except BotErr Response × World :=
  if ¬hasManageGuild then (.ok .noPermissions, w)
  else
    let p := findOrInsertState g w
    match p.1.prison_role with
    | none => (.ok (.ephemeralStr configureRoleMsg), p.2)
    | some role =>
      let w := mongoAddToPrison g u p.2
      bindE (memberAddRole g u role w) fun _ w => (.ok (.ephemeralStr arrestDoneMsg), w)

/-- The `release` subcommand of `prison_command_handler` (handler.rs lines
518-550). -/
def prisonRelease (hasManageGuild : Bool) (g u : SnowflakeId) (w : World) :
    Except BotErr Response × World :=
  if ¬hasManageGuild then (.ok .noPermissions, w)
  else
    let p := findOrInsertState g w
    match p.1.prison_role with
    | none => (.ok (.ephemeralStr configureRoleMsg), p.2)
    | some role =>
      let w := mongoRemoveFromPrison g u p.2
      bindE (memberRemoveRole g u role w) fun _ w =>
        (.ok (.ephemeralStr releaseDoneMsg), w)

/-- `Handler::handle_guild_member_join` (handler.rs lines 233-261): if a
punitive role is configured and a prison entry exists for the joining
member, re-grant the role; otherwise do nothing. -/
def handleGuildMemberJoin (g u : SnowflakeId) (w : World) :
    Except BotErr Unit × World :=
  let p := findOrInsertState g w
  match p.1.prison_role with
  | none => (.ok (), p.2)
  | some roleId =>
    match findPrisonEntry g u p.2 with
    | some _ => memberAddRole g u roleId p.2
    | none => (.ok (), p.2)

/-! ## Projections and helper lemmas -/

/-- The role list a member currently holds on the platform. -/
def memberRolesOf (w : World) (g u : SnowflakeId) : Option (List SnowflakeId) :=
  (getGuild w g).bind (fun pg => (pg.findMember u).map PlatformMember.roles)

/-! ## Trace and effect summaries used by the theorems -/

/-- The grant effect an optional participant contributes: one entry when
present, none when absent. -/
def optGrant (g : SnowflakeId) (o : Option SnowflakeId) (r : SnowflakeId) :
    List Effect :=
  match o with
  | some u => [Effect.roleGrant g u r]
  | none => []

/-- The effect sequence the spec prescribes for the detached setup phase:
persist the lawsuit, mark the room ongoing, then grant the room's role to
accused, accused's lawyer (if present), plaintiff, plaintiff's lawyer (if
present), judge. -/
def setupTrace (ctx : LawsuitCtx) (room : CourtRoom) : List Effect :=
  [Effect.dbPushLawsuit ctx.guild_id ctx.lawsuit,
   Effect.dbSetRoomOngoing ctx.guild_id room.channel_id true,
   Effect.roleGrant ctx.guild_id ctx.lawsuit.accused room.role_id]
  ++ optGrant ctx.guild_id ctx.lawsuit.accused_lawyer room.role_id
  ++ [Effect.roleGrant ctx.guild_id ctx.lawsuit.plaintiff room.role_id]
  ++ optGrant ctx.guild_id ctx.lawsuit.plaintiff_lawyer room.role_id
  ++ [Effect.roleGrant ctx.guild_id ctx.lawsuit.judge room.role_id]

/-- Recognizer for the modelled `expect("no verdict found!")` panic. -/
def isNoVerdictErr {α : Type} : Except BotErr α → Bool
  | .error .noVerdictFound => true
  | _ => false


/-! ## Concrete sample data shared by the witnesses -/

def sGuild : SnowflakeId := ⟨1⟩
def sJudge : SnowflakeId := ⟨10⟩
def sAccused : SnowflakeId := ⟨11⟩
def sPlaintiff : SnowflakeId := ⟨12⟩
def sChan : SnowflakeId := ⟨50⟩
def sRole : SnowflakeId := ⟨100⟩
def sCat : SnowflakeId := ⟨40⟩

def sampleLawsuit : Lawsuit :=
  { id := 7, plaintiff := sPlaintiff, accused := sAccused,
    plaintiff_lawyer := none, accused_lawyer := none, judge := sJudge,
    reason := "Beleidigung", verdict := none, court_room := sChan }

def sampleCtx : LawsuitCtx := { lawsuit := sampleLawsuit, guild_id := sGuild }

def sampleRoomBusy : CourtRoom :=
  { channel_id := sChan, ongoing_lawsuit := true, role_id := sRole }

def sampleRoomIdle : CourtRoom :=
  { channel_id := sChan, ongoing_lawsuit := false, role_id := sRole }

def samplePlatform : PlatformGuild :=
  { roles := [{ id := sRole, name := "Gerichtsprozess 1" }],
    channels := [{ id := sChan, name := "gerichtsraum-1", parent := some sCat }],
    members := [{ user_id := sJudge, roles := [sRole] },
                { user_id := sAccused, roles := [sRole] },
                { user_id := sPlaintiff, roles := [sRole] }] }

/-- A guild mid-lawsuit: one open lawsuit bound to the busy room. -/
def sampleState : State :=
  { guild_id := sGuild, lawsuits := [sampleLawsuit], court_category := some sCat,
    court_rooms := [sampleRoomBusy], prison_role := none }

def sampleWorld : World :=
  { states := [sampleState], prison := [], guilds := [(sGuild, samplePlatform)],
    nextId := 1000, trace := [] }

/-- A guild with one idle room. -/
def stateIdle : State :=
  { guild_id := sGuild, lawsuits := [], court_category := some sCat,
    court_rooms := [sampleRoomIdle], prison_role := none }

def worldIdle : World :=
  { states := [stateIdle], prison := [], guilds := [(sGuild, samplePlatform)],
    nextId := 1000, trace := [] }

/-- A guild with no rooms and no configured category. -/
def stateNoCat : State :=
  { guild_id := sGuild, lawsuits := [], court_category := none,
    court_rooms := [], prison_role := none }

def worldNoCat : World :=
  { states := [stateNoCat], prison := [], guilds := [(sGuild, samplePlatform)],
    nextId := 1000, trace := [] }

/-- The idle room's channel was deleted out-of-band: the platform guild has
no channels. -/
def platformNoChannels : PlatformGuild :=
  { roles := [{ id := sRole, name := "Gerichtsprozess 1" }], channels := [],
    members := [{ user_id := sJudge, roles := [] }] }

def worldDeadChannel : World :=
  { states := [stateIdle], prison := [], guilds := [(sGuild, platformNoChannels)],
    nextId := 1000, trace := [] }

/-- Punitive-role sample: the accused is imprisoned, left, and rejoins. -/
def prisonRoleId : SnowflakeId := ⟨200⟩

def statePrison : State :=
  { guild_id := sGuild, lawsuits := [], court_category := none,
    court_rooms := [], prison_role := some prisonRoleId }

def platformPrison : PlatformGuild :=
  { roles := [{ id := prisonRoleId, name := "Knast" }], channels := [],
    members := [{ user_id := sAccused, roles := [] }] }

def worldPrison : World :=
  { states := [statePrison],
    prison := [{ guild_id := sGuild, user_id := sAccused }],
    guilds := [(sGuild, platformPrison)], nextId := 1000, trace := [] }

/-- The judge closes the sample lawsuit with verdict "guilty". -/
def closeGuiltyRun : Except BotErr (Except Response Unit) × LawsuitCtx × World :=
  ruleVerdict sampleCtx false sJudge "guilty" sampleRoomBusy sampleWorld

/-! Round-trip machinery for the codec. -/

theorem charDigit_digitChar : ∀ d, d < 10 → charDigit (digitChar d) = some d := by
  decide

theorem digitChar_ne_plus : ∀ d, d < 10 → digitChar d ≠ '+' := by
  decide

theorem toDecAux_append (fuel : Nat) :
    ∀ n acc, n < fuel → toDecAux fuel n acc = toDecAux fuel n [] ++ acc := by
  induction fuel with
  | zero => intro n acc h; omega
  | succ f ih =>
    intro n acc h
    by_cases h10 : n < 10
    · simp [toDecAux, h10]
    · have hdiv : n / 10 < f := by
        have h1 : n / 10 < n := Nat.div_lt_self (by omega) (by omega)
        omega
      simp only [toDecAux, if_neg h10]
      rw [ih (n / 10) (digitChar (n % 10) :: acc) hdiv,
        ih (n / 10) [digitChar (n % 10)] hdiv]
      simp

theorem parseU64Digits_append (xs : List Char) :
    ∀ ys acc, parseU64Digits (xs ++ ys) acc =
      match parseU64Digits xs acc with
      | some b => parseU64Digits ys b
      | none => none := by
  induction xs with
  | nil => intro ys acc; rfl
  | cons c cs ih =>
    intro ys acc
    simp only [List.cons_append, parseU64Digits]
    cases hc : charDigit c with
    | none => simp [hc]
    | some d =>
      simp only [hc]
      cases hm : checkedMulU64 acc 10 with
      | none => simp [hm]
      | some m =>
        simp only [hm]
        cases ha : checkedAddU64 m d with
        | none => simp [ha]
        | some r =>
          simp only [ha]
          exact ih ys r

theorem parse_toDecAux (fuel : Nat) :
    ∀ n a, n < fuel → a * tenPowF fuel n + n ≤ U64_MAX →
      parseU64Digits (toDecAux fuel n []) a = some (a * tenPowF fuel n + n) := by
  induction fuel with
  | zero => intro n a h; omega
  | succ f ih =>
    intro n a hlt hub
    by_cases h10 : n < 10
    · simp only [toDecAux, tenPowF, if_pos h10] at hub ⊢
      simp only [parseU64Digits, charDigit_digitChar n h10]
      have hmul : a * 10 ≤ U64_MAX := by omega
      simp [checkedMulU64, checkedAddU64, hmul, hub]
    · have hdiv : n / 10 < f := by
        have h1 : n / 10 < n := Nat.div_lt_self (by omega) (by omega)
        omega
      simp only [toDecAux, tenPowF, if_neg h10] at hub ⊢
      rw [toDecAux_append f (n / 10) [digitChar (n % 10)] hdiv]
      rw [parseU64Digits_append]
      have hkey : (a * tenPowF f (n / 10) + n / 10) * 10 + n % 10
          = a * (10 * tenPowF f (n / 10)) + n := by
        have hmod := Nat.div_add_mod n 10
        nlinarith [hmod]
      have hub2 : a * tenPowF f (n / 10) + n / 10 ≤ U64_MAX := by
        have h1 : (a * tenPowF f (n / 10) + n / 10) * 10 + n % 10 ≤ U64_MAX := by
          rw [hkey]; exact hub
        set X := a * tenPowF f (n / 10) with hX
        omega
      rw [ih (n / 10) a hdiv hub2]
      have hd : n % 10 < 10 := Nat.mod_lt _ (by omega)
      simp only [parseU64Digits, charDigit_digitChar (n % 10) hd]
      have hmul : (a * tenPowF f (n / 10) + n / 10) * 10 ≤ U64_MAX := by
        set X := a * tenPowF f (n / 10) with hX
        have h1 : (X + n / 10) * 10 + n % 10 ≤ U64_MAX := by
          rw [hX, hkey]; exact hub
        omega
      have hadd : (a * tenPowF f (n / 10) + n / 10) * 10 + n % 10 ≤ U64_MAX := by
        rw [hkey]; exact hub
      simp [checkedMulU64, checkedAddU64, hmul, hadd, hkey, hub]

theorem toDecAux_head (fuel : Nat) :
    ∀ n, n < fuel → ∃ d T, toDecAux fuel n [] = digitChar d :: T ∧ d < 10 := by
  induction fuel with
  | zero => intro n h; omega
  | succ f ih =>
    intro n hlt
    by_cases h10 : n < 10
    · exact ⟨n, [], by simp [toDecAux, h10], h10⟩
    · have hdiv : n / 10 < f := by
        have h1 : n / 10 < n := Nat.div_lt_self (by omega) (by omega)
        omega
      obtain ⟨d, T, hT, hd⟩ := ih (n / 10) hdiv
      refine ⟨d, T ++ [digitChar (n % 10)], ?_, hd⟩
      simp only [toDecAux, if_neg h10]
      rw [toDecAux_append f (n / 10) [digitChar (n % 10)] hdiv, hT]
      simp

theorem u64_roundtrip (n : Nat) (h : n ≤ U64_MAX) :
    u64FromStr (u64Display n) = some n := by
  obtain ⟨d, T, hT, hd⟩ := toDecAux_head (n + 1) n (by omega)
  have hdata : (u64Display n).data = digitChar d :: T := by
    simp [u64Display, hT]
  have hparse : parseU64Digits (toDecAux (n + 1) n []) 0 = some n := by
    have := parse_toDecAux (n + 1) n 0 (by omega) (by simpa using h)
    simpa using this
  simp only [u64FromStr, hdata]
  rw [if_neg (digitChar_ne_plus d hd)]
  rw [← hT]
  exact hparse

theorem findOrInsertState_of_some {w : World} {g : SnowflakeId} {s : State}
    (hs : stateOf w g = some s) : findOrInsertState g w = (s, w) := by
  simp [findOrInsertState, hs]

theorem find?_map_ite {α : Type} (q : α → Bool) (f : α → α)
    (hq : ∀ a, q (f a) = q a) :
    ∀ L : List α, (L.map (fun a => if q a then f a else a)).find? q = (L.find? q).map f := by
  intro L
  induction L with
  | nil => rfl
  | cons a T ih =>
    by_cases h : q a
    · simp [h, List.find?_cons_of_pos, hq]
    · simp [h, List.find?_cons_of_neg, ih]

theorem getGuild_updateGuild (w : World) (g : SnowflakeId)
    (f : PlatformGuild → PlatformGuild) :
    getGuild (updateGuild w g f) g = (getGuild w g).map f := by
  simp only [getGuild, updateGuild]
  rw [find?_map_ite (fun p : SnowflakeId × PlatformGuild => p.1 == g)
    (fun p => (p.1, f p.2)) (fun a => rfl) w.guilds]
  cases w.guilds.find? (fun p => p.1 == g) <;> rfl

theorem findMember_updateMember (pg : PlatformGuild) (u : SnowflakeId)
    (f : PlatformMember → PlatformMember) (hf : ∀ m, (f m).user_id = m.user_id) :
    (pg.updateMember u f).findMember u = (pg.findMember u).map f := by
  simp only [PlatformGuild.findMember, PlatformGuild.updateMember]
  exact find?_map_ite (fun m : PlatformMember => m.user_id == u) f
    (fun m => by simp [hf m]) pg.members

/-! ## C2: authorization guard of `rule_verdict` -/

/-- C2: for every user distinct from the lawsuit's judge, `rule_verdict`
with `permission_override = false` returns the no-permission soft result and
changes nothing: the in-memory lawsuit (hence its verdict), the store, the
platform role sets, and the trace are all returned untouched. -/
theorem ruleVerdict_nonjudge_denied (ctx : LawsuitCtx) (uid : SnowflakeId)
    (v : String) (room : CourtRoom) (w : World) (h : ctx.lawsuit.judge ≠ uid) :
    ruleVerdict ctx false uid v room w = (.ok (.error .noPermissions), ctx, w) := by
  simp [ruleVerdict, h]

/-! ## C3: the allocator reuses an idle room -/

/-- C3: when the guild state holds an idle court room, room allocation
returns the first such room and leaves the world — store, platform, and
trace — untouched (no role or channel is created, nothing is persisted);
running it again on the resulting world yields the same room. -/
theorem allocate_reuses_idle_room (ctx : LawsuitCtx) (state : State) (w : World)
    (room : CourtRoom)
    (h : state.court_rooms.find? (fun r => !r.ongoing_lawsuit) = some room) :
    lawsuitAllocateRoom ctx state w = (.ok (.ok room), w)
    ∧ room ∈ state.court_rooms
    ∧ room.ongoing_lawsuit = false
    ∧ lawsuitAllocateRoom ctx state (lawsuitAllocateRoom ctx state w).2
      = (.ok (.ok room), w) := by
  have h1 : lawsuitAllocateRoom ctx state w = (.ok (.ok room), w) := by
    simp [lawsuitAllocateRoom, h]
  refine ⟨h1, List.mem_of_find?_eq_some h, ?_, by rw [h1]; exact h1⟩
  have h2 := List.find?_some h
  simpa using h2

/-! ## C4: no idle room and no category configured -/

/-- C4: when the guild's state exists, has no idle room and no configured
court category, `initialize` returns the "configure a category" soft
response and the world is unchanged — no lawsuit or room is persisted and
no room's ongoing flag changes. -/
theorem init_no_category_denied (ctx : LawsuitCtx) (w : World) (s : State)
    (hs : stateOf w ctx.guild_id = some s)
    (hroom : s.court_rooms.find? (fun r => !r.ongoing_lawsuit) = none)
    (hcat : s.court_category = none) :
    lawsuitInit ctx w = (.ok (Response.ephemeralStr configureCategoryMsg, none), w) := by
  simp [lawsuitInit, findOrInsertState_of_some hs, lawsuitAllocateRoom, hroom, hcat]

/-! ## C5: the allocated room's channel is gone -/

/-- C5: when the allocated (idle) room's channel cannot be resolved among
the guild's live channels, `initialize` returns the "channel not found" soft
response, spawns no setup task, and the world is unchanged — no lawsuit is
persisted, the room is not marked ongoing, and no role is granted. -/
theorem init_dead_channel_stops (ctx : LawsuitCtx) (w : World) (s : State)
    (room : CourtRoom) (pg : PlatformGuild)
    (hs : stateOf w ctx.guild_id = some s)
    (hroom : s.court_rooms.find? (fun r => !r.ongoing_lawsuit) = some room)
    (hpg : getGuild w ctx.guild_id = some pg)
    (hch : pg.channels.find? (fun c => c.id == room.channel_id) = none) :
    lawsuitInit ctx w = (.ok (Response.ephemeralStr channelNotFoundMsg, none), w) := by
  simp [lawsuitInit, findOrInsertState_of_some hs, lawsuitAllocateRoom, hroom,
    sendProcessOpenMessage, hpg, hch]

/-! ## C7: prison commands require a configured role -/

/-- C7: with `MANAGE_GUILD` held but no punitive role configured for the
guild, both `arrest` and `release` return the "configure a role first" soft
response and the world is unchanged: no prison entry is written or deleted
and no member role changes. -/
theorem prison_requires_configured_role (g u : SnowflakeId) (w : World) (s : State)
    (hs : stateOf w g = some s) (hrole : s.prison_role = none) :
    prisonArrest true g u w = (.ok (.ephemeralStr configureRoleMsg), w)
    ∧ prisonRelease true g u w = (.ok (.ephemeralStr configureRoleMsg), w) := by
  constructor
  · simp [prisonArrest, findOrInsertState_of_some hs, hrole]
  · simp [prisonRelease, findOrInsertState_of_some hs, hrole]

/-! ## C10: SnowflakeId decimal round trip -/

/-- C10: rendering a `SnowflakeId` (a `u64`) with its `Display` and parsing
the result back with its `FromStr` — the pair its serde string
(de)serialization uses — returns the original value. -/
theorem snowflake_display_roundtrip (s : SnowflakeId) (h : s.val ≤ U64_MAX) :
    SnowflakeId.fromStr s.display = some s := by
  rcases s with ⟨n⟩
  simp [SnowflakeId.display, SnowflakeId.fromStr, u64_roundtrip n h]

/-- Witness for C10 at a concrete 18-digit snowflake. -/
theorem snowflake_display_roundtrip_witness :
    (⟨236684395291011072⟩ : SnowflakeId).val ≤ U64_MAX
    ∧ SnowflakeId.fromStr (SnowflakeId.display ⟨236684395291011072⟩)
      = some ⟨236684395291011072⟩ :=
  ⟨by decide, snowflake_display_roundtrip ⟨236684395291011072⟩ (by decide)⟩

/-! ## C6: the detached setup tail runs its effects in a fixed order -/

theorem updateFirstState_guild_isSome (p : State → Bool) (f : State → State)
    (hf : ∀ s, (f s).guild_id = s.guild_id) (g : SnowflakeId) :
    ∀ L : List State,
      ((updateFirstState p f L).find? (fun s => s.guild_id == g)).isSome
        = (L.find? (fun s => s.guild_id == g)).isSome := by
  intro L
  induction L with
  | nil => rfl
  | cons s T ih =>
    by_cases hp : p s
    · simp only [updateFirstState, if_pos hp]
      by_cases hg : s.guild_id = g
      · rw [List.find?_cons_of_pos _ (by simp [hf, hg]),
          List.find?_cons_of_pos _ (by simp [hg])]
        rfl
      · rw [List.find?_cons_of_neg _ (by simp [hf, hg]),
          List.find?_cons_of_neg _ (by simp [hg])]
    · simp only [updateFirstState, if_neg hp]
      by_cases hg : s.guild_id = g
      · rw [List.find?_cons_of_pos _ (by simp [hg]),
          List.find?_cons_of_pos _ (by simp [hg])]
      · rw [List.find?_cons_of_neg _ (by simp [hg]),
          List.find?_cons_of_neg _ (by simp [hg])]
        exact ih

theorem mongoAddLawsuit_trace {g : SnowflakeId} {w : World}
    (h : (stateOf w g).isSome) (l : Lawsuit) :
    (mongoAddLawsuit g l w).trace = w.trace ++ [Effect.dbPushLawsuit g l] := by
  obtain ⟨s, hs⟩ := Option.isSome_iff_exists.mp h
  simp [mongoAddLawsuit, findOrInsertState_of_some hs, pushTrace]

theorem mongoAddLawsuit_stateOf_isSome {g : SnowflakeId} {w : World}
    (h : (stateOf w g).isSome) (l : Lawsuit) :
    (stateOf (mongoAddLawsuit g l w) g).isSome := by
  obtain ⟨s, hs⟩ := Option.isSome_iff_exists.mp h
  simp only [mongoAddLawsuit, findOrInsertState_of_some hs, pushTrace, stateOf]
  rw [updateFirstState_guild_isSome
    (fun s => matchPath1 s.bson "guild_id" (snowBVal g))
    (fun s => { s with lawsuits := s.lawsuits ++ [l] }) (fun s => rfl) g w.states]
  exact h

theorem mongoSetRoomOngoing_trace {g ch : SnowflakeId} {v : Bool} {w : World}
    (h : (stateOf w g).isSome) :
    (mongoSetCourtRoomOngoing g ch v w).trace
      = w.trace ++ [Effect.dbSetRoomOngoing g ch v] := by
  obtain ⟨s, hs⟩ := Option.isSome_iff_exists.mp h
  simp [mongoSetCourtRoomOngoing, findOrInsertState_of_some hs, pushTrace]

theorem memberAddRole_ok_trace {g u r : SnowflakeId} {w : World}
    (h : (memberAddRole g u r w).1 = .ok ()) :
    (memberAddRole g u r w).2.trace = w.trace ++ [Effect.roleGrant g u r] := by
  rcases hg : getGuild w g with _ | pg
  · simp [memberAddRole, hg] at h
  · rcases hm : pg.findMember u with _ | m
    · simp [memberAddRole, hg, hm] at h
    · simp [memberAddRole, hg, hm, pushTrace, updateGuild]

theorem addRoleOpt_ok_trace {g r : SnowflakeId} {o : Option SnowflakeId} {w : World}
    (h : (addRoleOpt g o r w).1 = .ok ()) :
    (addRoleOpt g o r w).2.trace = w.trace ++ optGrant g o r := by
  cases o with
  | none => simp [addRoleOpt, optGrant]
  | some u =>
    have h2 : (memberAddRole g u r w).1 = .ok () := h
    simpa [optGrant] using memberAddRole_ok_trace h2

/-- C6: a successful run of the detached setup phase appends exactly
`setupTrace` to the world's effect trace — the persistence and role grants
happen in that fixed order, an absent lawyer being skipped without
disturbing the rest.  (The guild's state document is assumed present, as
`initialize` has created it before spawning the setup task.) -/
theorem setup_effects_in_fixed_order (ctx : LawsuitCtx) (room : CourtRoom)
    (w : World) (hs : (stateOf w ctx.guild_id).isSome)
    (h : (lawsuitSetup ctx room w).1 = .ok ()) :
    (lawsuitSetup ctx room w).2.trace = w.trace ++ setupTrace ctx room := by
  have h1 := mongoAddLawsuit_stateOf_isSome hs ctx.lawsuit
  have t1 := mongoAddLawsuit_trace hs ctx.lawsuit
  have t2 : (mongoSetCourtRoomOngoing ctx.guild_id room.channel_id true
      (mongoAddLawsuit ctx.guild_id ctx.lawsuit w)).trace
      = (mongoAddLawsuit ctx.guild_id ctx.lawsuit w).trace
        ++ [Effect.dbSetRoomOngoing ctx.guild_id room.channel_id true] :=
    mongoSetRoomOngoing_trace h1
  revert h
  simp only [lawsuitSetup]
  rcases hA : memberAddRole ctx.guild_id ctx.lawsuit.accused room.role_id
      (mongoSetCourtRoomOngoing ctx.guild_id room.channel_id true
        (mongoAddLawsuit ctx.guild_id ctx.lawsuit w)) with ⟨resA, wA⟩
  cases resA with
  | error e => intro h; simp [bindE] at h
  | ok a =>
    have tA : wA.trace = (mongoSetCourtRoomOngoing ctx.guild_id room.channel_id true
        (mongoAddLawsuit ctx.guild_id ctx.lawsuit w)).trace
        ++ [Effect.roleGrant ctx.guild_id ctx.lawsuit.accused room.role_id] := by
      have hok : (memberAddRole ctx.guild_id ctx.lawsuit.accused room.role_id
          (mongoSetCourtRoomOngoing ctx.guild_id room.channel_id true
            (mongoAddLawsuit ctx.guild_id ctx.lawsuit w))).1 = .ok () := by rw [hA]
      have t := memberAddRole_ok_trace hok
      rwa [hA] at t
    simp only [bindE]
    rcases hB : addRoleOpt ctx.guild_id ctx.lawsuit.accused_lawyer room.role_id wA
      with ⟨resB, wB⟩
    cases resB with
    | error e => intro h; simp [bindE] at h
    | ok a =>
      have tB : wB.trace = wA.trace
          ++ optGrant ctx.guild_id ctx.lawsuit.accused_lawyer room.role_id := by
        have hok : (addRoleOpt ctx.guild_id ctx.lawsuit.accused_lawyer room.role_id
            wA).1 = .ok () := by rw [hB]
        have t := addRoleOpt_ok_trace hok
        rwa [hB] at t
      simp only [bindE]
      rcases hC : memberAddRole ctx.guild_id ctx.lawsuit.plaintiff room.role_id wB
        with ⟨resC, wC⟩
      cases resC with
      | error e => intro h; simp [bindE] at h
      | ok a =>
        have tC : wC.trace = wB.trace
            ++ [Effect.roleGrant ctx.guild_id ctx.lawsuit.plaintiff room.role_id] := by
          have hok : (memberAddRole ctx.guild_id ctx.lawsuit.plaintiff room.role_id
              wB).1 = .ok () := by rw [hC]
          have t := memberAddRole_ok_trace hok
          rwa [hC] at t
        simp only [bindE]
        rcases hD : addRoleOpt ctx.guild_id ctx.lawsuit.plaintiff_lawyer room.role_id wC
          with ⟨resD, wD⟩
        cases resD with
        | error e => intro h; simp [bindE] at h
        | ok a =>
          have tD : wD.trace = wC.trace
              ++ optGrant ctx.guild_id ctx.lawsuit.plaintiff_lawyer room.role_id := by
            have hok : (addRoleOpt ctx.guild_id ctx.lawsuit.plaintiff_lawyer
                room.role_id wC).1 = .ok () := by rw [hD]
            have t := addRoleOpt_ok_trace hok
            rwa [hD] at t
          simp only [bindE]
          intro h
          rw [memberAddRole_ok_trace h, tD, tC, tB, tA, t2, t1]
          simp [setupTrace]

/-! ## C9: the close-message panic is unreachable from `rule_verdict` -/

theorem isNoVerdictErr_memberRemoveRole (g u r : SnowflakeId) (w : World) :
    isNoVerdictErr (memberRemoveRole g u r w).1 = false := by
  rcases hg : getGuild w g with _ | pg
  · simp [memberRemoveRole, hg, isNoVerdictErr]
  · rcases hm : pg.findMember u with _ | m
    · simp [memberRemoveRole, hg, hm, isNoVerdictErr]
    · simp [memberRemoveRole, hg, hm, isNoVerdictErr]

theorem isNoVerdictErr_removeRoleOpt (g : SnowflakeId) (o : Option SnowflakeId)
    (r : SnowflakeId) (w : World) :
    isNoVerdictErr (removeRoleOpt g o r w).1 = false := by
  cases o with
  | none => rfl
  | some u => exact isNoVerdictErr_memberRemoveRole g u r w

theorem isNoVerdictErr_closeMessage (ctx : LawsuitCtx) (room : CourtRoom) (w : World)
    (h : ctx.lawsuit.verdict.isSome) :
    isNoVerdictErr (sendProcessCloseMessage ctx room w).1 = false := by
  rcases hg : getGuild w ctx.guild_id with _ | pg
  · simp [sendProcessCloseMessage, hg, isNoVerdictErr]
  · rcases hc : pg.channels.find? (fun c => c.id == room.channel_id) with _ | c
    · simp [sendProcessCloseMessage, hg, hc, isNoVerdictErr]
    · rcases hv : ctx.lawsuit.verdict with _ | v
      · rw [hv] at h; simp at h
      · simp [sendProcessCloseMessage, hg, hc, hv, isNoVerdictErr]

theorem bindE_isNoVerdictErr {α β : Type} (x : Except BotErr α × World)
    (f : α → World → Except BotErr β × World)
    (hx : isNoVerdictErr x.1 = false)
    (hf : ∀ a w, isNoVerdictErr (f a w).1 = false) :
    isNoVerdictErr (bindE x f).1 = false := by
  rcases x with ⟨res, w⟩
  cases res with
  | ok a => simpa [bindE] using hf a w
  | error e =>
    cases e
    case noVerdictFound => simp [isNoVerdictErr] at hx
    all_goals simp [bindE, isNoVerdictErr]

theorem ruleVerdictRun_no_panic (ctx : LawsuitCtx) (room : CourtRoom) (w : World)
    (h : ctx.lawsuit.verdict.isSome) :
    isNoVerdictErr (ruleVerdictRun ctx room w).1 = false := by
  simp only [ruleVerdictRun]
  apply bindE_isNoVerdictErr _ _ (isNoVerdictErr_memberRemoveRole _ _ _ _)
  intro _ w1
  apply bindE_isNoVerdictErr _ _ (isNoVerdictErr_memberRemoveRole _ _ _ _)
  intro _ w2
  apply bindE_isNoVerdictErr _ _ (isNoVerdictErr_memberRemoveRole _ _ _ _)
  intro _ w3
  apply bindE_isNoVerdictErr _ _ (isNoVerdictErr_removeRoleOpt _ _ _ _)
  intro _ w4
  apply bindE_isNoVerdictErr _ _ (isNoVerdictErr_removeRoleOpt _ _ _ _)
  intro _ w5
  exact isNoVerdictErr_closeMessage ctx room w5 h

/-- C9: `rule_verdict` can never hit the
`expect("no verdict found!")` panic inside the closure-announcement builder,
because it writes the verdict onto the in-memory lawsuit before any path
that sends the closure announcement. -/
theorem ruleVerdict_never_no_verdict_panic (ctx : LawsuitCtx)
    (permissionOverride : Bool) (uid : SnowflakeId) (v : String)
    (room : CourtRoom) (w : World) :
    isNoVerdictErr (ruleVerdict ctx permissionOverride uid v room w).1 = false := by
  unfold ruleVerdict
  split
  · rfl
  · exact ruleVerdictRun_no_panic _ room w (by simp)

/-! ## C8: the join handler restores the punitive role -/

theorem getGuild_pushTrace (w : World) (e : Effect) (g : SnowflakeId) :
    getGuild (pushTrace w e) g = getGuild w g := rfl

theorem findOrInsertState_guilds (g : SnowflakeId) (w : World) :
    (findOrInsertState g w).2.guilds = w.guilds := by
  cases h : stateOf w g <;> simp [findOrInsertState, h, pushTrace]

theorem findOrInsertState_prison (g : SnowflakeId) (w : World) :
    (findOrInsertState g w).2.prison = w.prison := by
  cases h : stateOf w g <;> simp [findOrInsertState, h, pushTrace]

theorem memberAddRole_ok_and_roles {g u r : SnowflakeId} {w : World}
    {pg : PlatformGuild} {m : PlatformMember}
    (hpg : getGuild w g = some pg) (hm : pg.findMember u = some m) :
    (memberAddRole g u r w).1 = .ok ()
    ∧ ∃ rs, memberRolesOf (memberAddRole g u r w).2 g u = some rs ∧ r ∈ rs := by
  have hf : ∀ mm : PlatformMember,
      ((if mm.roles.contains r then mm
        else { mm with roles := r :: mm.roles }) : PlatformMember).user_id
        = mm.user_id := by
    intro mm
    split <;> rfl
  refine ⟨by simp [memberAddRole, hpg, hm], ?_⟩
  refine ⟨(if m.roles.contains r then m else { m with roles := r :: m.roles }).roles,
    ?_, ?_⟩
  · simp only [memberAddRole, hpg, hm, memberRolesOf, getGuild_pushTrace,
      getGuild_updateGuild, Option.map_some', Option.some_bind]
    rw [findMember_updateMember pg u _ hf, hm]
    simp
  · by_cases hc : r ∈ m.roles <;> simp [hc]

/-- C8: when a prison entry exists for the joining member and a punitive
role is configured, the join handler grants that role (the member resolving
on the platform); when no prison entry exists, the handler changes no
platform state at all, in particular no role of any member. -/
theorem join_restores_punitive_role :
    (∀ g u r (w : World) s pg m,
      stateOf w g = some s → s.prison_role = some r →
      (findPrisonEntry g u w).isSome →
      getGuild w g = some pg → pg.findMember u = some m →
      (handleGuildMemberJoin g u w).1 = .ok ()
      ∧ ∃ rs, memberRolesOf (handleGuildMemberJoin g u w).2 g u = some rs ∧ r ∈ rs)
    ∧ (∀ g u (w : World), findPrisonEntry g u w = none →
      (handleGuildMemberJoin g u w).1 = .ok ()
      ∧ (handleGuildMemberJoin g u w).2.guilds = w.guilds) := by
  constructor
  · intro g u r w s pg m hs hrole hentry hpg hm
    have hfi := findOrInsertState_of_some hs
    obtain ⟨e, he⟩ := Option.isSome_iff_exists.mp hentry
    simp only [handleGuildMemberJoin, hfi, hrole, he]
    exact memberAddRole_ok_and_roles hpg hm
  · intro g u w hnone
    rcases hfi : findOrInsertState g w with ⟨s0, w0⟩
    have hpris : w0.prison = w.prison := by
      have h2 := findOrInsertState_prison g w
      rwa [hfi] at h2
    have hgld : w0.guilds = w.guilds := by
      have h2 := findOrInsertState_guilds g w
      rwa [hfi] at h2
    have hnone0 : findPrisonEntry g u w0 = none := by
      simpa [findPrisonEntry, hpris] using hnone
    simp only [handleGuildMemberJoin, hfi]
    cases s0.prison_role with
    | none => exact ⟨rfl, hgld⟩
    | some r => simp [hnone0, hgld]

/-! ## C1: closing as the judge — the stored verdict is never persisted

The `set_lawsuit` store primitive filters on the path `lawsuit.id`, but the
`State` document stores its array under the field name `lawsuits`, so the
filter matches no document and the verdict update is a no-op.  This holds
for every state document: -/

theorem setLawsuitFilter_never_matches (uid : Nat) (s : State) :
    matchPath2 s.bson "lawsuit" "id" (.vUuid uid) = false := rfl

theorem mongoSetLawsuitVerdict_states_unchanged (g : SnowflakeId) (uid : Nat)
    (v : Option String) (w : World) :
    (mongoSetLawsuitVerdict g uid v w).states = (findOrInsertState g w).2.states := by
  simp only [mongoSetLawsuitVerdict, pushTrace]
  have h2 : ∀ L : List State, updateFirstState
      (fun s => matchPath1 s.bson "guild_id" (snowBVal g) &&
        matchPath2 s.bson "lawsuit" "id" (.vUuid uid))
      (fun s => { s with lawsuits :=
        (updateFirstLawsuit (fun l => l.id == uid)
          (fun l => { l with verdict := v }) s.lawsuits) }) L = L := by
    intro L
    induction L with
    | nil => rfl
    | cons s T ih => simp [updateFirstState, setLawsuitFilter_never_matches uid s, ih]
  rw [h2]

/-- C1 (exhibiting the `set_lawsuit` defect at a concrete input): the judge
closes the sample lawsuit with verdict "guilty"; the call succeeds, the
in-memory verdict is set, the bound room's `ongoing_lawsuit` is persisted as
`false`, and judge, accused and plaintiff lose the room's role — but the
stored `Lawsuit` record's verdict is still `none`, not `"guilty"` as the
spec requires, because `set_lawsuit` filters on the nonexistent document
path `lawsuit.id` (the field is named `lawsuits`) and so updates no
document. -/
theorem close_guilty_stored_verdict_unset :
    closeGuiltyRun.1 = .ok (.ok ())
    ∧ closeGuiltyRun.2.1.lawsuit.verdict = some "guilty"
    ∧ (stateOf closeGuiltyRun.2.2 sGuild).map
        (fun s => s.court_rooms.map CourtRoom.ongoing_lawsuit) = some [false]
    ∧ (stateOf closeGuiltyRun.2.2 sGuild).map
        (fun s => s.lawsuits.map Lawsuit.verdict) = some [none]
    ∧ memberRolesOf closeGuiltyRun.2.2 sGuild sJudge = some []
    ∧ memberRolesOf closeGuiltyRun.2.2 sGuild sAccused = some []
    ∧ memberRolesOf closeGuiltyRun.2.2 sGuild sPlaintiff = some [] :=
  ⟨rfl, rfl, rfl, rfl, rfl, rfl, rfl⟩

/-- Witness for C6: the setup tail on the sample guild (no lawyers). -/
theorem setup_effects_in_fixed_order_witness :
    (lawsuitSetup sampleCtx sampleRoomBusy sampleWorld).2.trace
      = sampleWorld.trace ++ setupTrace sampleCtx sampleRoomBusy :=
  setup_effects_in_fixed_order sampleCtx sampleRoomBusy sampleWorld rfl rfl

/-- Witness for C8: a rejoin with a prison entry gets the punitive role; a
rejoin without one (the court sample, whose prison collection is empty)
changes no platform state. -/
theorem join_restores_punitive_role_witness :
    ((handleGuildMemberJoin sGuild sAccused worldPrison).1 = .ok ()
      ∧ ∃ rs, memberRolesOf (handleGuildMemberJoin sGuild sAccused worldPrison).2
          sGuild sAccused = some rs ∧ prisonRoleId ∈ rs)
    ∧ ((handleGuildMemberJoin sGuild sAccused sampleWorld).1 = .ok ()
      ∧ (handleGuildMemberJoin sGuild sAccused sampleWorld).2.guilds
        = sampleWorld.guilds) :=
  ⟨join_restores_punitive_role.1 sGuild sAccused prisonRoleId worldPrison
      statePrison platformPrison { user_id := sAccused, roles := [] }
      rfl rfl rfl rfl rfl,
    join_restores_punitive_role.2 sGuild sAccused sampleWorld rfl⟩

/-- Witness for C2: the accused (not the judge) tries to close. -/
theorem ruleVerdict_nonjudge_denied_witness :
    ruleVerdict sampleCtx false sAccused "guilty" sampleRoomBusy sampleWorld
      = (.ok (.error .noPermissions), sampleCtx, sampleWorld) :=
  ruleVerdict_nonjudge_denied sampleCtx sAccused "guilty" sampleRoomBusy sampleWorld
    (by decide)

/-- Witness for C3 on a guild with one idle room. -/
theorem allocate_reuses_idle_room_witness :
    lawsuitAllocateRoom sampleCtx stateIdle worldIdle
      = (.ok (.ok sampleRoomIdle), worldIdle)
    ∧ sampleRoomIdle ∈ stateIdle.court_rooms
    ∧ sampleRoomIdle.ongoing_lawsuit = false
    ∧ lawsuitAllocateRoom sampleCtx stateIdle
        (lawsuitAllocateRoom sampleCtx stateIdle worldIdle).2
      = (.ok (.ok sampleRoomIdle), worldIdle) :=
  allocate_reuses_idle_room sampleCtx stateIdle worldIdle sampleRoomIdle rfl

/-- Witness for C4 on a guild with no rooms and no category. -/
theorem init_no_category_denied_witness :
    lawsuitInit sampleCtx worldNoCat
      = (.ok (Response.ephemeralStr configureCategoryMsg, none), worldNoCat) :=
  init_no_category_denied sampleCtx worldNoCat stateNoCat rfl rfl rfl

/-- Witness for C5 on a guild whose idle room's channel is gone. -/
theorem init_dead_channel_stops_witness :
    lawsuitInit sampleCtx worldDeadChannel
      = (.ok (Response.ephemeralStr channelNotFoundMsg, none), worldDeadChannel) :=
  init_dead_channel_stops sampleCtx worldDeadChannel stateIdle sampleRoomIdle
    platformNoChannels rfl rfl rfl rfl

/-- Witness for C7 on a guild with no punitive role configured. -/
theorem prison_requires_configured_role_witness :
    prisonArrest true sGuild sAccused sampleWorld
      = (.ok (.ephemeralStr configureRoleMsg), sampleWorld)
    ∧ prisonRelease true sGuild sAccused sampleWorld
      = (.ok (.ephemeralStr configureRoleMsg), sampleWorld) :=
  prison_requires_configured_role sGuild sAccused sampleWorld sampleState rfl rfl

end CourtBot
